import Mathlib

/-!
Verification of the seq2seq model-assembly code (`src/seq2seq/models.py`)
against its natural-language specification.

The Python module contains three builder functions — `SimpleSeq2Seq`,
`Seq2Seq`, `AttentionSeq2Seq` — that assemble computation graphs out of
framework-provided layers (`LSTMCell`, `LSTMDecoderCell`,
`AttentionDecoderCell`, `Dropout`, `Dense`, `RecurrentContainer`).  The
builders themselves are pure configuration logic: they normalize arguments,
resolve the input shape from a kwargs mapping, and wire layer stacks into
containers.  We embed that configuration logic shallowly: kwargs become a
record of optional entries plus a list of opaque extra entries, layers become
an inductive type recording the constructor arguments the Python code passes,
tensors become a syntax tree of the graph-wiring operations, and each builder
becomes a total Lean function returning `Except BuildError` of a model
structure (Python exceptions raised during building become `.error`).
-/

namespace Seq2SeqSpec

/-- A batch input shape `(batch, time, features)` as the Python code handles
it: each component is either a concrete size or `None`. -/
abbrev Shape3 := Option Nat × Option Nat × Option Nat

/-- The kwargs mapping passed to a builder, restricted to the keys the code
inspects (`batch_input_shape`, `input_shape`, `input_dim`, `input_length`,
`unroll`, `stateful`); every field is `none` when the key is absent.  All
other entries are carried opaquely in `others` (key paired with an opaque
value) and are never inspected by the builders, only forwarded. -/
structure Kwargs where
  batch_input_shape : Option Shape3
  input_shape : Option (Option Nat × Option Nat)
  input_dim : Option Nat
  input_length : Option Nat
  unroll : Option Bool
  stateful : Option Bool
  others : List (String × Nat)
deriving DecidableEq, Repr

/-- The kwargs mapping with no entries at all. -/
def kwEmpty : Kwargs := ⟨none, none, none, none, none, none, []⟩

/-- Shape resolution, embedding the `if 'batch_input_shape' in kwargs ...
elif 'input_shape' ... elif 'input_dim' ...` chain that each of the three
builders begins with.  Returns the resolved shape (or `none` when no shape
key is present, in which case the Python local `shape` is left unassigned)
together with the kwargs mapping after the matched keys are deleted. -/
def resolveShape (k : Kwargs) : Option Shape3 × Kwargs :=
  match k.batch_input_shape with
  | some s => (some s, { k with batch_input_shape := none })
  | none =>
    match k.input_shape with
    | some p => (some (none, p.1, p.2), { k with input_shape := none })
    | none =>
      match k.input_dim with
      | some d =>
        match k.input_length with
        | some l =>
          (some (none, some l, some d), { k with input_dim := none, input_length := none })
        | none => (some (none, none, some d), { k with input_dim := none })
      | none => (none, k)

/-- Extraction of the `unroll` and `stateful` flags: each defaults to
`False` when absent, and both keys are deleted from the kwargs mapping. -/
def extractFlags (k : Kwargs) : Bool × Bool × Kwargs :=
  (k.unroll.getD false, k.stateful.getD false, { k with unroll := none, stateful := none })

/-- The result of the option-processing prologue shared by all three
builders: the resolved shape (if any), the `unroll` and `stateful` flags,
and the kwargs mapping that is forwarded to cell construction. -/
structure ResolvedOptions where
  shape : Option Shape3
  unroll : Bool
  stateful : Bool
  remaining : Kwargs
deriving DecidableEq, Repr

/-- The full option-processing prologue: shape resolution followed by
`unroll`/`stateful` extraction, in source order. -/
def processOptions (k : Kwargs) : ResolvedOptions :=
  let (shape, k1) := resolveShape k
  let (u, s, k2) := extractFlags k1
  ⟨shape, u, s, k2⟩

/-- Depth normalization: `if type(depth) == int: depth = [depth, depth]`.
A scalar becomes a pair, a pair passes through unchanged. -/
def normalizeDepth (depth : Nat ⊕ (Nat × Nat)) : Nat × Nat :=
  match depth with
  | .inl n => (n, n)
  | .inr p => p

/-- Hidden-dimension resolution: `if not hidden_dim: hidden_dim =
output_dim`.  Note Python falsiness: both `None` and `0` trigger the
default. -/
def resolveHiddenDim (hidden_dim : Option Nat) (output_dim : Nat) : Nat :=
  match hidden_dim with
  | none => output_dim
  | some 0 => output_dim
  | some h => h

/-- A layer added to a container, recording exactly the constructor
arguments the Python code passes.  `batchInputShape` is the optional
`batch_input_shape=` argument (a tuple of possibly-`None` sizes of varying
arity in the source, hence a list); `kw` is the `**kwargs` mapping forwarded
to the cell. -/
inductive Layer where
  | lstmCell (units : Nat) (batchInputShape : Option (List (Option Nat))) (kw : Kwargs)
  | dropout (rate : ℚ) (batchInputShape : Option (List (Option Nat)))
  | lstmDecoderCell (outputDim hiddenDim : Nat) (batchInputShape : Option (List (Option Nat))) (kw : Kwargs)
  | attentionDecoderCell (outputDim hiddenDim : Nat)
deriving DecidableEq, Repr

/-- Whether a layer is a recurrent cell (as opposed to a dropout layer). -/
def Layer.isCell : Layer → Bool
  | .lstmCell .. => true
  | .lstmDecoderCell .. => true
  | .attentionDecoderCell .. => true
  | .dropout .. => false

/-- Whether a layer is a dropout layer. -/
def Layer.isDropout : Layer → Bool
  | .dropout .. => true
  | _ => false

/-- Whether a layer is an attention decoder cell. -/
def Layer.isAttentionCell : Layer → Bool
  | .attentionDecoderCell .. => true
  | _ => false

/-- Whether a layer is a plain (non-attention) decoder cell. -/
def Layer.isPlainDecoderCell : Layer → Bool
  | .lstmDecoderCell .. => true
  | _ => false

/-- The recurrent cells of a layer stack, in order, dropout layers
filtered out. -/
def cells (ls : List Layer) : List Layer := ls.filter Layer.isCell

/-- Number of recurrent cells in a layer stack. -/
def cellCount (ls : List Layer) : Nat := ls.countP (fun l => l.isCell)

/-- Number of dropout layers in a layer stack. -/
def dropoutCount (ls : List Layer) : Nat := ls.countP (fun l => l.isDropout)

/-- `n` repetitions of the two-layer block `[a, b]`, embedding the
`for _ in range(...)` loops that add a pair of layers per iteration. -/
def repeatPair (n : Nat) (a b : Layer) : List Layer :=
  match n with
  | 0 => []
  | n + 1 => a :: b :: repeatPair n a b

/-- The readout mode of a `RecurrentContainer`: absent, `True`, `'add'`, or
`'readout_only'`. -/
inductive ReadoutMode where
  | off
  | on
  | add
  | readoutOnly
deriving DecidableEq, Repr

/-- A `RecurrentContainer` as configured by the builders: the constructor
flags together with the ordered stack of layers added to it. -/
structure RecurrentContainer where
  unroll : Bool := false
  stateful : Bool := false
  decode : Bool := false
  output_length : Option Nat := none
  input_length : Option Nat := none
  readout : ReadoutMode := .off
  state_sync : Bool := false
  return_states : Bool := false
  return_sequences : Bool := false
  layers : List Layer := []
deriving DecidableEq, Repr

/-- A symbolic tensor of the wired graph: external inputs and the
operations the builders apply to them.  `rcOut x` is the (primary) output of
applying a recurrent container to `x`; `rcState i x` is the `i`-th final
state exported by that application. -/
inductive Tensor where
  | inputT (batchShape : List (Option Nat))
  | tdDense (units : Nat) (x : Tensor)
  | dense (units : Nat) (x : Tensor)
  | rcOut (x : Tensor)
  | rcState (i : Nat) (x : Tensor)
deriving DecidableEq, Repr

/-- Modelled from the spec: applying a `RecurrentContainer` built with
`return_states=True` returns the output followed by the final-state tuple —
per the spec, "the encoder's two-element final-state tuple".  The container
implementation lives in the external `recurrentshop` framework, outside this
repository. -/
def rcApplyWithStates (x : Tensor) : List Tensor :=
  [.rcOut x, .rcState 0 x, .rcState 1 x]

/-- Applying a `RecurrentContainer` built without `return_states`: a single
output tensor. -/
def rcApply (x : Tensor) : Tensor := .rcOut x

/-- The Python slice `lst[-2:]` on a list. -/
def lastTwo {α : Type} (l : List α) : List α := l.drop (l.length - 2)

/-- Errors a builder can raise at build time.  `unboundLocalError` is
Python's error for reading the never-assigned local `shape`;
`indexError` is an out-of-range list index; `configurationError` is the
error class named by the specification (no code in `models.py` raises
it). -/
inductive BuildError where
  | unboundLocalError
  | indexError
  | configurationError
deriving DecidableEq, Repr

/-- The model returned by `SimpleSeq2Seq`: a `Sequential` composition of the
encoder container and the decoder container. -/
structure SimpleModel where
  encoder : RecurrentContainer
  decoder : RecurrentContainer
deriving DecidableEq, Repr

/-- `SimpleSeq2Seq(output_dim, output_length, hidden_dim=None, depth=1,
dropout=0., **kwargs)` from `models.py`. -/
def SimpleSeq2Seq (output_dim output_length : Nat) (hidden_dim : Option Nat)
    (depth : Nat ⊕ (Nat × Nat)) (dropout : ℚ) (kwargs : Kwargs) :
    Except BuildError SimpleModel :=
  let d := normalizeDepth depth
  let r := processOptions kwargs
  match r.shape with
  | none => .error .unboundLocalError
  | some shape =>
    let hd := resolveHiddenDim hidden_dim output_dim
    let encoder : RecurrentContainer :=
      { unroll := r.unroll, stateful := r.stateful, input_length := shape.2.1,
        layers := Layer.lstmCell hd (some [shape.1, shape.2.2]) r.remaining ::
          repeatPair (d.1 - 1) (.dropout dropout none) (.lstmCell hd none r.remaining) }
    let decoder : RecurrentContainer :=
      { unroll := r.unroll, stateful := r.stateful, decode := true,
        output_length := some output_length, input_length := shape.2.1,
        layers := Layer.dropout dropout (some [shape.1, some hd]) ::
          Layer.lstmCell hd none r.remaining ::
          repeatPair (d.2 - 1) (.dropout dropout none) (.lstmCell hd none r.remaining) }
    .ok { encoder := encoder, decoder := decoder }

/-- The structured input bundle the `Seq2Seq` builder passes to its decoder
container: `{'input': ..., 'ground_truth': ..., 'initial_readout': ...,
'states': ...}`. -/
structure DecoderBundle where
  input : Tensor
  ground_truth : Option Tensor
  initial_readout : Tensor
  states : List (Option Tensor)
deriving DecidableEq, Repr

/-- The model returned by `Seq2Seq`: the external inputs, the encoder and
decoder containers (also attached as attributes on the Keras model), and the
bundle with which the decoder container was invoked. -/
structure Seq2SeqModel where
  inputs : List Tensor
  encoder : RecurrentContainer
  decoder : RecurrentContainer
  decoderCall : DecoderBundle
deriving DecidableEq, Repr

/-- `Seq2Seq(output_dim, output_length, hidden_dim=None, depth=1,
broadcast_state=True, inner_broadcast_state=True, teacher_force=False,
peek=False, dropout=0., **kwargs)` from `models.py`. -/
def Seq2Seq (output_dim output_length : Nat) (hidden_dim : Option Nat)
    (depth : Nat ⊕ (Nat × Nat))
    (broadcast_state inner_broadcast_state teacher_force peek : Bool)
    (dropout : ℚ) (kwargs : Kwargs) : Except BuildError Seq2SeqModel :=
  let d := normalizeDepth depth
  let r := processOptions kwargs
  match r.shape with
  | none => .error .unboundLocalError
  | some shape =>
    let hd := resolveHiddenDim hidden_dim output_dim
    let encoder : RecurrentContainer :=
      { readout := .on, state_sync := inner_broadcast_state, input_length := shape.2.1,
        unroll := r.unroll, stateful := r.stateful, return_states := broadcast_state,
        layers := repeatPair d.1
          (.lstmCell hd (some [shape.1, some hd]) r.remaining) (.dropout dropout none) }
    let decoder : RecurrentContainer :=
      { readout := if peek then .add else .readoutOnly, state_sync := inner_broadcast_state,
        output_length := some output_length, unroll := r.unroll, stateful := r.stateful,
        decode := true, input_length := shape.2.1,
        layers := repeatPair d.2
          (.dropout dropout (some [shape.1, some output_dim]))
          (.lstmDecoderCell output_dim hd (some [shape.1, some output_dim]) r.remaining) }
    let input := Tensor.inputT [shape.1, shape.2.1, shape.2.2]
    let enc1 := Tensor.tdDense hd input
    let (encoded, states) :=
      if broadcast_state then
        let ret := rcApplyWithStates enc1
        (ret.headD (Tensor.rcOut enc1), (lastTwo ret).map some)
      else
        (rcApply enc1, ([none, none] : List (Option Tensor)))
    let encoded2 := Tensor.dense output_dim encoded
    let inputs :=
      if teacher_force then
        [input, Tensor.inputT [shape.1, some output_length, some output_dim]]
      else [input]
    match (if broadcast_state then
             match inputs[1]? with
             | some t => Except.ok (some t)
             | none => Except.error BuildError.indexError
           else Except.ok none) with
    | .error e => .error e
    | .ok gt =>
      .ok { inputs := inputs, encoder := encoder, decoder := decoder,
            decoderCall := { input := encoded2, ground_truth := gt,
                             initial_readout := encoded2, states := states } }

/-- The model returned by `AttentionSeq2Seq`: the external inputs, the
encoder container (with the flag recording whether it was wrapped in
`Bidirectional(..., merge_mode='sum')`), the decoder container, and the
encoder's output tensor fed to the decoder. -/
structure AttentionModel where
  inputs : List Tensor
  encoder : RecurrentContainer
  bidirectional : Bool
  decoder : RecurrentContainer
  encoded : Tensor
deriving DecidableEq, Repr

/-- `AttentionSeq2Seq(output_dim, output_length, hidden_dim=None, depth=1,
bidirectional=True, dropout=0., **kwargs)` from `models.py`. -/
def AttentionSeq2Seq (output_dim output_length : Nat) (hidden_dim : Option Nat)
    (depth : Nat ⊕ (Nat × Nat)) (bidirectional : Bool) (dropout : ℚ)
    (kwargs : Kwargs) : Except BuildError AttentionModel :=
  let d := normalizeDepth depth
  let r := processOptions kwargs
  match r.shape with
  | none => .error .unboundLocalError
  | some shape =>
    let hd := resolveHiddenDim hidden_dim output_dim
    let encoder : RecurrentContainer :=
      { unroll := r.unroll, stateful := r.stateful, return_sequences := true,
        input_length := shape.2.1,
        layers := Layer.lstmCell hd (some [shape.1, shape.2.2]) r.remaining ::
          repeatPair (d.1 - 1) (.dropout dropout none) (.lstmCell hd none r.remaining) }
    let input := Tensor.inputT [shape.1, shape.2.1, shape.2.2]
    let encoded := rcApply input
    let decoder : RecurrentContainer :=
      { decode := true, output_length := some output_length, unroll := r.unroll,
        stateful := r.stateful, input_length := shape.2.1,
        layers := Layer.dropout dropout (some [shape.1, shape.2.1, some hd]) ::
          (if d.2 = 1 then [Layer.attentionDecoderCell output_dim hd]
           else Layer.attentionDecoderCell hd hd ::
             (repeatPair (d.2 - 2) (.dropout dropout none) (.lstmDecoderCell hd hd none kwEmpty) ++
              [Layer.dropout dropout none, Layer.lstmDecoderCell output_dim hd none kwEmpty])) }
    .ok { inputs := [input], encoder := encoder, bidirectional := bidirectional,
          decoder := decoder, encoded := encoded }

/-! Projection helpers used to state properties of build results, and a few
concrete kwargs mappings used to evaluate the builders. -/

/-- Number of attention decoder cells in a layer stack. -/
def attentionCellCount (ls : List Layer) : Nat := ls.countP (fun l => l.isAttentionCell)

/-- Number of plain (non-attention) decoder cells in a layer stack. -/
def plainDecoderCellCount (ls : List Layer) : Nat := ls.countP (fun l => l.isPlainDecoderCell)

/-- Whether the first layer of a stack is a dropout layer. -/
def firstLayerIsDropout (ls : List Layer) : Bool :=
  match ls with
  | [] => false
  | l :: _ => l.isDropout

/-- Whether the first layer of a stack is an attention decoder cell. -/
def firstLayerIsAttention (ls : List Layer) : Bool :=
  match ls with
  | [] => false
  | l :: _ => l.isAttentionCell

/-- The encoder layer stack of a `SimpleSeq2Seq` build result. -/
def simpleEncoderLayers (r : Except BuildError SimpleModel) : Option (List Layer) :=
  r.toOption.map fun m => m.encoder.layers

/-- The decoder layer stack of a `SimpleSeq2Seq` build result. -/
def simpleDecoderLayers (r : Except BuildError SimpleModel) : Option (List Layer) :=
  r.toOption.map fun m => m.decoder.layers

/-- The `states` entry of the bundle a `Seq2Seq` build passed to its
decoder container. -/
def decoderCallStates (r : Except BuildError Seq2SeqModel) : Option (List (Option Tensor)) :=
  r.toOption.map fun m => m.decoderCall.states

/-- The number of external inputs and the `ground_truth` entry of the
decoder bundle of a `Seq2Seq` build result. -/
def inputsAndGroundTruth (r : Except BuildError Seq2SeqModel) :
    Option (Nat × Option Tensor) :=
  r.toOption.map fun m => (m.inputs.length, m.decoderCall.ground_truth)

/-- The recurrent cells (dropouts filtered out) of the decoder container of
an `AttentionSeq2Seq` build result. -/
def attentionDecoderCells (r : Except BuildError AttentionModel) : Option (List Layer) :=
  r.toOption.map fun m => cells m.decoder.layers

/-- kwargs `{'input_dim': 8}`. -/
def kwDim8 : Kwargs := { kwEmpty with input_dim := some 8 }

/-- kwargs `{'input_dim': 8, 'input_length': 10}`. -/
def kwDim8Len10 : Kwargs := { kwEmpty with input_dim := some 8, input_length := some 10 }

/-- kwargs holding both `batch_input_shape=(None,3,4)` and
`input_shape=(9,9)` at once, to exercise precedence. -/
def kwBothShapes : Kwargs :=
  ⟨some (none, some 3, some 4), some (some 9, some 9), none, none, none, none, []⟩

/-! Helper lemmas about `repeatPair`, shared by the layer-stack claims. -/

theorem repeatPair_countP (p : Layer → Bool) (a b : Layer) (n : Nat) :
    (repeatPair n a b).countP p =
      n * ((if p a then 1 else 0) + (if p b then 1 else 0)) := by
  induction n with
  | zero => simp [repeatPair]
  | succ n ih =>
    simp only [repeatPair, List.countP_cons, ih]
    ring

theorem repeatPair_filter_snd (p : Layer → Bool) (a b : Layer)
    (ha : p a = false) (hb : p b = true) (n : Nat) :
    (repeatPair n a b).filter p = List.replicate n b := by
  induction n with
  | zero => rfl
  | succ n ih =>
    simp only [repeatPair, List.filter_cons, ha, hb, ih]
    simp [List.replicate_succ]

theorem countP_replicate (p : Layer → Bool) (x : Layer) (n : Nat) :
    (List.replicate n x).countP p = if p x then n else 0 := by
  induction n with
  | zero => simp
  | succ n ih =>
    simp only [List.replicate_succ, List.countP_cons, ih]
    by_cases h : p x <;> simp [h]

/-- C10: depth is normalized to an `(encoder_depth, decoder_depth)` pair
before assembly: a scalar integer `N` yields `(N, N)`, and a two-element
pair passes through unchanged. -/
theorem depth_normalization :
    (∀ n : Nat, normalizeDepth (.inl n) = (n, n)) ∧
    (∀ p : Nat × Nat, normalizeDepth (.inr p) = p) :=
  ⟨fun _ => rfl, fun _ => rfl⟩

/-- C9 counterexample: `hidden_dim` explicitly provided as `0` is not used
unchanged — `if not hidden_dim` treats `0` as falsy and replaces it with
`output_dim`.  Here `hidden_dim=0, output_dim=5` resolves to `5 ≠ 0`. -/
theorem hidden_dim_zero_not_preserved :
    resolveHiddenDim (some 0) 5 = 5 ∧ (5 : Nat) ≠ 0 := by
  exact ⟨rfl, by decide⟩

/-- C9 (amended): if `hidden_dim` is omitted the resolved hidden dimension
equals `output_dim`; if provided and nonzero it is used unchanged; a
provided `0` is also replaced by `output_dim` (Python falsiness). -/
theorem hidden_dim_resolution :
    (∀ out : Nat, resolveHiddenDim none out = out) ∧
    (∀ out h : Nat, h ≠ 0 → resolveHiddenDim (some h) out = h) ∧
    (∀ out : Nat, resolveHiddenDim (some 0) out = out) := by
  refine ⟨fun _ => rfl, ?_, fun _ => rfl⟩
  intro out h hh
  cases h with
  | zero => exact absurd rfl hh
  | succ n => rfl

/-- C9 witness: the amended claim evaluated at `output_dim=7` with
`hidden_dim` omitted, `=3`, and `=0`. -/
theorem hidden_dim_resolution_witness :
    resolveHiddenDim none 7 = 7 ∧ resolveHiddenDim (some 3) 7 = 3 ∧
    resolveHiddenDim (some 0) 7 = 7 :=
  ⟨hidden_dim_resolution.1 7, hidden_dim_resolution.2.1 7 3 (by decide),
   hidden_dim_resolution.2.2 7⟩

/-- C4: the shape resolver yields the same `(batch, time, features)` triple
for equivalent specifications — `batch_input_shape=(None,10,8)`,
`input_shape=(10,8)`, and `input_dim=8, input_length=10` all resolve to
`(None,10,8)`, and `input_dim=8` alone resolves to `(None,None,8)` — and
when more than one form is present, the first in the precedence order
`batch_input_shape > input_shape > input_dim` determines the result. -/
theorem shape_resolver_equivalence_and_precedence :
    ((resolveShape { kwEmpty with batch_input_shape := some (none, some 10, some 8) }).1
        = some (none, some 10, some 8) ∧
     (resolveShape { kwEmpty with input_shape := some (some 10, some 8) }).1
        = some (none, some 10, some 8) ∧
     (resolveShape { kwEmpty with input_dim := some 8, input_length := some 10 }).1
        = some (none, some 10, some 8) ∧
     (resolveShape { kwEmpty with input_dim := some 8 }).1 = some (none, none, some 8)) ∧
    (∀ k : Kwargs, ∀ s, k.batch_input_shape = some s → (resolveShape k).1 = some s) ∧
    (∀ k : Kwargs, ∀ p, k.batch_input_shape = none → k.input_shape = some p →
        (resolveShape k).1 = some (none, p.1, p.2)) ∧
    (∀ k : Kwargs, ∀ dv, k.batch_input_shape = none → k.input_shape = none →
        k.input_dim = some dv →
        (resolveShape k).1 = some (none, k.input_length, some dv)) := by
  refine ⟨⟨rfl, rfl, rfl, rfl⟩, ?_, ?_, ?_⟩
  · intro k s h
    simp [resolveShape, h]
  · intro k p h1 h2
    simp [resolveShape, h1, h2]
  · intro k dv h1 h2 h3
    cases hl : k.input_length <;> simp [resolveShape, h1, h2, h3, hl]

/-- C4 witness: precedence evaluated on a mapping holding both
`batch_input_shape=(None,3,4)` and `input_shape=(9,9)`: the batch shape
wins. -/
theorem shape_resolver_equivalence_and_precedence_witness :
    (resolveShape kwBothShapes).1 = some (none, some 3, some 4) :=
  shape_resolver_equivalence_and_precedence.2.1 _ _ rfl

/-- C8: exactly the shape-option keys matched by the resolver, together
with the `unroll`/`stateful` keys, are removed from the options mapping
before it is forwarded to cell construction; every other entry — including
shape keys lower in the precedence order than the matched one, and all
opaque extra entries — is forwarded unchanged.  (Each record-update
equation pins every non-deleted field to its original value.) -/
theorem kwargs_consumption_exact :
    ∀ k : Kwargs,
      (∀ s, k.batch_input_shape = some s →
        (processOptions k).remaining =
          { k with batch_input_shape := none, unroll := none, stateful := none }) ∧
      (∀ p, k.batch_input_shape = none → k.input_shape = some p →
        (processOptions k).remaining =
          { k with input_shape := none, unroll := none, stateful := none }) ∧
      (∀ dv lv, k.batch_input_shape = none → k.input_shape = none →
          k.input_dim = some dv → k.input_length = some lv →
        (processOptions k).remaining =
          { k with input_dim := none, input_length := none,
                   unroll := none, stateful := none }) ∧
      (∀ dv, k.batch_input_shape = none → k.input_shape = none →
          k.input_dim = some dv → k.input_length = none →
        (processOptions k).remaining =
          { k with input_dim := none, unroll := none, stateful := none }) := by
  intro k
  refine ⟨?_, ?_, ?_, ?_⟩
  · intro s h
    simp [processOptions, resolveShape, extractFlags, h]
  · intro p h1 h2
    simp [processOptions, resolveShape, extractFlags, h1, h2]
  · intro dv lv h1 h2 h3 h4
    simp [processOptions, resolveShape, extractFlags, h1, h2, h3, h4]
  · intro dv h1 h2 h3 h4
    simp [processOptions, resolveShape, extractFlags, h1, h2, h3, h4]

/-- C8 witness: on a mapping holding `batch_input_shape`, `input_dim`,
`unroll` and an opaque entry, the forwarded mapping loses exactly
`batch_input_shape` and `unroll` while the lower-precedence `input_dim` and
the opaque entry survive. -/
theorem kwargs_consumption_exact_witness :
    (processOptions ⟨some (none, some 3, some 4), none, some 9, none,
        some true, none, [("activation", 3)]⟩).remaining =
      ⟨none, none, some 9, none, none, none, [("activation", 3)]⟩ :=
  (kwargs_consumption_exact _).1 _ rfl

/-- C3 counterexample: with no shape key at all, `SimpleSeq2Seq` fails with
Python's unbound-local error on `shape` — not with a `ConfigurationError`
(no code in `models.py` raises one). -/
theorem missing_shape_error_is_not_configuration_error :
    SimpleSeq2Seq 8 5 none (.inl 1) 0 kwEmpty = .error .unboundLocalError ∧
    BuildError.unboundLocalError ≠ BuildError.configurationError :=
  ⟨rfl, by decide⟩

/-- C3 (amended): when the options mapping contains none of
`batch_input_shape`, `input_shape`, or `input_dim`, each of the three
builders fails before any layer or container is constructed — but with an
unbound-local-variable error (`shape` is never assigned), not a
`ConfigurationError`. -/
theorem builders_missing_shape_unbound_local_error :
    ∀ (k : Kwargs) (od ol : Nat) (hd : Option Nat) (dp : Nat ⊕ (Nat × Nat))
      (b1 b2 b3 b4 : Bool) (dr : ℚ),
      k.batch_input_shape = none → k.input_shape = none → k.input_dim = none →
      SimpleSeq2Seq od ol hd dp dr k = .error .unboundLocalError ∧
      Seq2Seq od ol hd dp b1 b2 b3 b4 dr k = .error .unboundLocalError ∧
      AttentionSeq2Seq od ol hd dp b1 dr k = .error .unboundLocalError := by
  intro k od ol hd dp b1 b2 b3 b4 dr h1 h2 h3
  have hs : (processOptions k).shape = none := by
    simp [processOptions, resolveShape, extractFlags, h1, h2, h3]
  refine ⟨?_, ?_, ?_⟩
  · simp [SimpleSeq2Seq, hs]
  · simp [Seq2Seq, hs]
  · simp [AttentionSeq2Seq, hs]

/-- C3 witness: the amended claim evaluated on an empty kwargs mapping. -/
theorem builders_missing_shape_unbound_local_error_witness :
    SimpleSeq2Seq 8 5 none (.inl 1) 0 kwEmpty = .error .unboundLocalError ∧
    Seq2Seq 8 5 none (.inl 1) true true false false 0 kwEmpty = .error .unboundLocalError ∧
    AttentionSeq2Seq 8 5 none (.inl 1) true 0 kwEmpty = .error .unboundLocalError :=
  builders_missing_shape_unbound_local_error kwEmpty 8 5 none (.inl 1)
    true true false false 0 rfl rfl rfl

/-- C2: for every `Seq2Seq` invocation with `broadcast_state=True` and
`teacher_force=False` (the default flag values) whose shape options
resolve, the graph wiring indexes `inputs[1]` on the one-element inputs
list, so the builder fails with an out-of-range indexing error at build
time and returns no model. -/
theorem seq2seq_default_flags_index_error :
    ∀ (od ol : Nat) (hd : Option Nat) (dp : Nat ⊕ (Nat × Nat)) (ibs peek : Bool)
      (dr : ℚ) (k : Kwargs) (s : Shape3),
      (processOptions k).shape = some s →
      Seq2Seq od ol hd dp true ibs false peek dr k = .error .indexError := by
  intro od ol hd dp ibs peek dr k s h
  simp [Seq2Seq, h]

/-- C2 witness: the concrete invocation
`Seq2Seq(8, 5, input_dim=8)` (default flags) fails with the indexing
error. -/
theorem seq2seq_default_flags_index_error_witness :
    Seq2Seq 8 5 none (.inl 1) true true false false 0 kwDim8 = .error .indexError :=
  seq2seq_default_flags_index_error 8 5 none (.inl 1) true false 0 kwDim8
    (none, none, some 8) rfl

/-- C1 (code evaluated at the failing input): with `teacher_force=True` and
`broadcast_state=False`, the built model has two external inputs but the
decoder's `ground_truth` entry is `None` — the code conditions the ground
truth on `broadcast_state`, not on `teacher_force`, so the ground-truth
tensor is accepted but never handed to the decoder. -/
theorem seq2seq_teacher_force_ground_truth_dropped :
    inputsAndGroundTruth (Seq2Seq 8 5 none (.inl 1) false true true false 0 kwDim8) =
      some (2, none) := rfl

/-- C6 counterexample: at `broadcast_state=True, teacher_force=False` (the
default flags) the build fails with the indexing error before the decoder
container is ever invoked, so the decoder is not handed the encoder's
final-state tuple (nor any states) for this invocation. -/
theorem seq2seq_broadcast_default_decoder_not_invoked :
    Seq2Seq 8 5 none (.inl 1) true true false false 0 kwDim8Len10 =
      .error .indexError := rfl

/-- C6 (amended): when the decoder container is actually invoked, its
initial states are determined by `broadcast_state`: with
`broadcast_state=False` the bundle's states are `[None, None]`; with
`broadcast_state=True` (which requires `teacher_force=True` for the build
to survive the `inputs[1]` access) the bundle's states are exactly the
last two outputs of the encoder application — its two-element final-state
tuple — unchanged; with `broadcast_state=True, teacher_force=False` the
build fails with the indexing error and the decoder is not invoked. -/
theorem seq2seq_decoder_initial_states :
    ∀ (od ol : Nat) (hd : Option Nat) (dp : Nat ⊕ (Nat × Nat)) (ibs tf peek : Bool)
      (dr : ℚ) (k : Kwargs) (s : Shape3),
      (processOptions k).shape = some s →
      decoderCallStates (Seq2Seq od ol hd dp false ibs tf peek dr k) = some [none, none] ∧
      decoderCallStates (Seq2Seq od ol hd dp true ibs true peek dr k) =
        some ((lastTwo (rcApplyWithStates
          (.tdDense (resolveHiddenDim hd od) (.inputT [s.1, s.2.1, s.2.2])))).map some) ∧
      lastTwo (rcApplyWithStates
          (.tdDense (resolveHiddenDim hd od) (.inputT [s.1, s.2.1, s.2.2]))) =
        [.rcState 0 (.tdDense (resolveHiddenDim hd od) (.inputT [s.1, s.2.1, s.2.2])),
         .rcState 1 (.tdDense (resolveHiddenDim hd od) (.inputT [s.1, s.2.1, s.2.2]))] ∧
      Seq2Seq od ol hd dp true ibs false peek dr k = .error .indexError := by
  intro od ol hd dp ibs tf peek dr k s h
  refine ⟨?_, ?_, ?_, ?_⟩
  · simp [decoderCallStates, Seq2Seq, h, rcApply, Except.toOption]
  · simp [decoderCallStates, Seq2Seq, h, rcApplyWithStates, lastTwo, Except.toOption]
  · simp [rcApplyWithStates, lastTwo]
  · simp [Seq2Seq, h]

/-- C6 witness: the amended claim evaluated at
`Seq2Seq(8, 5, depth=2, input_dim=8, input_length=10)` for each flag
combination. -/
theorem seq2seq_decoder_initial_states_witness :
    decoderCallStates (Seq2Seq 8 5 none (.inl 2) false true true false 0 kwDim8Len10) =
      some [none, none] ∧
    decoderCallStates (Seq2Seq 8 5 none (.inl 2) true true true false 0 kwDim8Len10) =
      some ((lastTwo (rcApplyWithStates
        (.tdDense (resolveHiddenDim none 8)
          (.inputT [(none : Option Nat), some 10, some 8])))).map some) ∧
    lastTwo (rcApplyWithStates
        (.tdDense (resolveHiddenDim none 8)
          (.inputT [(none : Option Nat), some 10, some 8]))) =
      [.rcState 0 (.tdDense (resolveHiddenDim none 8)
          (.inputT [(none : Option Nat), some 10, some 8])),
       .rcState 1 (.tdDense (resolveHiddenDim none 8)
          (.inputT [(none : Option Nat), some 10, some 8]))] ∧
    Seq2Seq 8 5 none (.inl 2) true true false false 0 kwDim8Len10 =
      .error .indexError :=
  seq2seq_decoder_initial_states 8 5 none (.inl 2) true true false 0 kwDim8Len10
    (none, some 10, some 8) rfl

/-- C5 counterexample: at `depth=1` the `SimpleSeq2Seq` decoder container
holds one dropout layer (the claim demands `d-1 = 0`) and that dropout sits
before the first recurrent cell (the claim demands none there). -/
theorem simple_decoder_dropout_counterexample :
    (simpleDecoderLayers (SimpleSeq2Seq 8 5 none (.inl 1) 0 kwDim8Len10)).map
        dropoutCount = some 1 ∧
    (simpleDecoderLayers (SimpleSeq2Seq 8 5 none (.inl 1) 0 kwDim8Len10)).map
        firstLayerIsDropout = some true :=
  ⟨rfl, rfl⟩

/-- C5 (amended): for depths `e, d ≥ 1`, the `SimpleSeq2Seq` encoder
container stacks exactly `e` recurrent cells with exactly `e-1` dropout
layers between consecutive cells and none before its first cell; the
decoder container stacks exactly `d` recurrent cells but carries `d`
dropout layers, one of which (declaring the decoder's input shape) sits
before its first cell. -/
theorem simple_seq2seq_layer_stacks :
    ∀ (od ol : Nat) (hd : Option Nat) (dp : Nat ⊕ (Nat × Nat)) (dr : ℚ)
      (k : Kwargs) (s : Shape3) (e dd : Nat),
      (processOptions k).shape = some s → normalizeDepth dp = (e, dd) →
      1 ≤ e → 1 ≤ dd →
      (simpleEncoderLayers (SimpleSeq2Seq od ol hd dp dr k)).map cellCount = some e ∧
      (simpleEncoderLayers (SimpleSeq2Seq od ol hd dp dr k)).map dropoutCount
        = some (e - 1) ∧
      (simpleEncoderLayers (SimpleSeq2Seq od ol hd dp dr k)).map firstLayerIsDropout
        = some false ∧
      (simpleDecoderLayers (SimpleSeq2Seq od ol hd dp dr k)).map cellCount = some dd ∧
      (simpleDecoderLayers (SimpleSeq2Seq od ol hd dp dr k)).map dropoutCount = some dd ∧
      (simpleDecoderLayers (SimpleSeq2Seq od ol hd dp dr k)).map firstLayerIsDropout
        = some true := by
  intro od ol hd dp dr k s e dd hs hdp he hdd
  refine ⟨?_, ?_, ?_, ?_, ?_, ?_⟩ <;>
    simp [simpleEncoderLayers, simpleDecoderLayers, SimpleSeq2Seq, hs, hdp,
      Except.toOption, cellCount, dropoutCount, firstLayerIsDropout,
      List.countP_cons, repeatPair_countP, Layer.isCell, Layer.isDropout] <;>
    omega

/-- C5 witness: the amended claim evaluated at
`SimpleSeq2Seq(8, 5, depth=3, input_dim=8, input_length=10)`. -/
theorem simple_seq2seq_layer_stacks_witness :
    (simpleEncoderLayers (SimpleSeq2Seq 8 5 none (.inl 3) 0 kwDim8Len10)).map cellCount
      = some 3 ∧
    (simpleEncoderLayers (SimpleSeq2Seq 8 5 none (.inl 3) 0 kwDim8Len10)).map dropoutCount
      = some 2 ∧
    (simpleEncoderLayers (SimpleSeq2Seq 8 5 none (.inl 3) 0 kwDim8Len10)).map firstLayerIsDropout
      = some false ∧
    (simpleDecoderLayers (SimpleSeq2Seq 8 5 none (.inl 3) 0 kwDim8Len10)).map cellCount
      = some 3 ∧
    (simpleDecoderLayers (SimpleSeq2Seq 8 5 none (.inl 3) 0 kwDim8Len10)).map dropoutCount
      = some 3 ∧
    (simpleDecoderLayers (SimpleSeq2Seq 8 5 none (.inl 3) 0 kwDim8Len10)).map firstLayerIsDropout
      = some true :=
  simple_seq2seq_layer_stacks 8 5 none (.inl 3) 0 kwDim8Len10
    (none, some 10, some 8) 3 3 rfl rfl (by decide) (by decide)

/-- C7: for every decoder depth `d ≥ 1`, `AttentionSeq2Seq`'s decoder
container holds exactly one attention cell, placed as the first (lowest)
cell, followed by exactly `d-1` plain decoder cells in sequence; at `d=1`
the attention cell's output dimension is `output_dim`, and at `d>1` the
attention cell and all intermediate cells use the hidden dimension with
only the last stacked cell producing `output_dim`. -/
theorem attention_decoder_structure :
    ∀ (od ol : Nat) (hd : Option Nat) (dp : Nat ⊕ (Nat × Nat)) (bi : Bool) (dr : ℚ)
      (k : Kwargs) (s : Shape3) (e dd : Nat),
      (processOptions k).shape = some s → normalizeDepth dp = (e, dd) → 1 ≤ dd →
      (attentionDecoderCells (AttentionSeq2Seq od ol hd dp bi dr k)).map
          attentionCellCount = some 1 ∧
      (attentionDecoderCells (AttentionSeq2Seq od ol hd dp bi dr k)).map
          firstLayerIsAttention = some true ∧
      (attentionDecoderCells (AttentionSeq2Seq od ol hd dp bi dr k)).map
          plainDecoderCellCount = some (dd - 1) ∧
      (dd = 1 → attentionDecoderCells (AttentionSeq2Seq od ol hd dp bi dr k) =
        some [.attentionDecoderCell od (resolveHiddenDim hd od)]) ∧
      (2 ≤ dd → attentionDecoderCells (AttentionSeq2Seq od ol hd dp bi dr k) =
        some (.attentionDecoderCell (resolveHiddenDim hd od) (resolveHiddenDim hd od) ::
          (List.replicate (dd - 2)
            (.lstmDecoderCell (resolveHiddenDim hd od) (resolveHiddenDim hd od) none kwEmpty) ++
           [.lstmDecoderCell od (resolveHiddenDim hd od) none kwEmpty]))) := by
  intro od ol hd dp bi dr k s e dd hs hdp hdd
  have hA : attentionDecoderCells (AttentionSeq2Seq od ol hd dp bi dr k) =
      some (if dd = 1 then [Layer.attentionDecoderCell od (resolveHiddenDim hd od)]
            else Layer.attentionDecoderCell (resolveHiddenDim hd od) (resolveHiddenDim hd od) ::
              (List.replicate (dd - 2)
                (Layer.lstmDecoderCell (resolveHiddenDim hd od) (resolveHiddenDim hd od) none kwEmpty) ++
               [Layer.lstmDecoderCell od (resolveHiddenDim hd od) none kwEmpty])) := by
    have hf := repeatPair_filter_snd (fun l => l.isCell) (.dropout dr none)
      (.lstmDecoderCell (resolveHiddenDim hd od) (resolveHiddenDim hd od) none kwEmpty)
      rfl rfl (dd - 2)
    by_cases h1 : dd = 1
    · simp [attentionDecoderCells, AttentionSeq2Seq, hs, hdp, Except.toOption,
        cells, List.filter_cons, Layer.isCell, h1]
    · simp [attentionDecoderCells, AttentionSeq2Seq, hs, hdp, Except.toOption,
        cells, List.filter_cons, List.filter_append, Layer.isCell, h1, hf]
  by_cases h1 : dd = 1
  · rw [if_pos h1] at hA
    subst h1
    refine ⟨?_, ?_, ?_, fun _ => hA, fun h2 => absurd h2 (by decide)⟩ <;>
      simp [hA, attentionCellCount, plainDecoderCellCount, firstLayerIsAttention,
        List.countP_cons, Layer.isAttentionCell, Layer.isPlainDecoderCell]
  · rw [if_neg h1] at hA
    refine ⟨?_, ?_, ?_, fun h => absurd h h1, fun _ => hA⟩ <;>
      simp [hA, attentionCellCount, plainDecoderCellCount, firstLayerIsAttention,
        List.countP_cons, List.countP_append, countP_replicate,
        Layer.isAttentionCell, Layer.isPlainDecoderCell] <;>
      omega

/-- C7 witness: the claim evaluated at
`AttentionSeq2Seq(4, 5, hidden_dim=6, depth=3, input_dim=8,
input_length=10)`. -/
theorem attention_decoder_structure_witness :
    (attentionDecoderCells (AttentionSeq2Seq 4 5 (some 6) (.inl 3) true 0 kwDim8Len10)).map
        attentionCellCount = some 1 ∧
    (attentionDecoderCells (AttentionSeq2Seq 4 5 (some 6) (.inl 3) true 0 kwDim8Len10)).map
        firstLayerIsAttention = some true ∧
    (attentionDecoderCells (AttentionSeq2Seq 4 5 (some 6) (.inl 3) true 0 kwDim8Len10)).map
        plainDecoderCellCount = some 2 ∧
    ((3 : Nat) = 1 → attentionDecoderCells (AttentionSeq2Seq 4 5 (some 6) (.inl 3) true 0 kwDim8Len10) =
      some [.attentionDecoderCell 4 (resolveHiddenDim (some 6) 4)]) ∧
    ((2 : Nat) ≤ 3 → attentionDecoderCells (AttentionSeq2Seq 4 5 (some 6) (.inl 3) true 0 kwDim8Len10) =
      some (.attentionDecoderCell (resolveHiddenDim (some 6) 4) (resolveHiddenDim (some 6) 4) ::
        (List.replicate 1
          (.lstmDecoderCell (resolveHiddenDim (some 6) 4) (resolveHiddenDim (some 6) 4) none kwEmpty) ++
         [.lstmDecoderCell 4 (resolveHiddenDim (some 6) 4) none kwEmpty]))) :=
  attention_decoder_structure 4 5 (some 6) (.inl 3) true 0 kwDim8Len10
    (none, some 10, some 8) 3 3 rfl rfl (by decide)

end Seq2SeqSpec
